import Mathlib

/-!
Shallow embedding of `appveyor_client/client.py` (goanpeca/appveyor-client).

The repository is a thin HTTP binding: every resource method builds a
`"VERB /api/path"` string, optionally a JSON body, and hands both to the
dispatcher `AppveyorClient._request`, which splits the string on the space
and performs the call; `AppveyorClient._parse_response_contents` maps the
raw HTTP response to a decoded payload or a raised error.

The embedding models the pure part of that pipeline:
  * Python string primitives used by the code (`str.strip`, `str.lower`,
    `str.split(' ')`, `str.format`) are implemented structurally over
    `List Char` so that they evaluate by `rfl` and can be reasoned about
    by induction;
  * a `Request` value is the request descriptor the dispatcher would send
    (HTTP method, URL path, JSON body as a key/value list — `json.dumps`
    serializes exactly these fields);
  * Python exceptions (`AppveyorError`, `AppveyorClientError`,
    `UnboundLocalError`, `ValueError`) become the `PyExn` error type of an
    `Except` result: `Except.error` means the Python code raised before
    returning / before any HTTP request was sent.
-/

/-- Whitespace characters stripped by Python `str.strip()` (ASCII subset). -/
def pySpaceChars : List Char := [' ', '\t', '\n', '\x0d', '\x0b', '\x0c']

def isPySpace (c : Char) : Bool := pySpaceChars.contains c

/-- Python `s.strip()`: drop leading and trailing whitespace. -/
def pyStrip (s : String) : String :=
  String.mk (((s.data.dropWhile isPySpace).reverse.dropWhile isPySpace).reverse)

/-- Python `s.lower()` (ASCII behaviour). -/
def pyLower (s : String) : String :=
  String.mk (s.data.map Char.toLower)

/-- Python `s.split(sep)` for a one-character separator: split at every
occurrence, no collapsing of empty fields. -/
def splitChar (sep : Char) : List Char → List (List Char)
  | [] => [[]]
  | c :: cs =>
    match splitChar sep cs with
    | [] => [[]]
    | r :: rs => if c = sep then [] :: r :: rs else (c :: r) :: rs

def pySplit (s : String) (sep : Char) : List String :=
  (splitChar sep s.data).map List.asString

/-- Index of the first occurrence of `pat` in a character list, if any. -/
def findPat? (pat : List Char) : List Char → Option Nat
  | [] => none
  | c :: cs => if pat.isPrefixOf (c :: cs) then some 0 else (findPat? pat cs).map (· + 1)

/-- Whether `sub` occurs inside `s`. -/
def hasSub (s sub : String) : Bool := (findPat? sub.data s.data).isSome

/-- Python `template.format(name=value)` for templates that contain the
field `\x7bname\x7d` at most once (the only shape this code base uses);
a template without the field is returned unchanged, as in Python. -/
def pyFormat (template name value : String) : String :=
  let ph := ("\x7b" ++ name ++ "\x7d")
  match findPat? ph.data template.data with
  | some i =>
    String.mk (template.data.take i ++ value.data ++ template.data.drop (i + ph.data.length))
  | none => template

/-- Python truthiness of an optional string argument (`None` and `""` are falsy). -/
def pyTruthyStr : Option String → Bool
  | none => false
  | some s => !(s == "")

/-- Python truthiness of an optional integer argument (`None` and `0` are falsy). -/
def pyTruthyNat : Option Nat → Bool
  | none => false
  | some n => !(n == 0)

/-- Python `str(x)` for an optional integer (as passed into `str.format`). -/
def pyStrOfNat : Option Nat → String
  | none => "None"
  | some n => Nat.repr n

/-- JSON values, as produced by `response.json()` and carried in request
bodies before `json.dumps` serialization. -/
inductive Jsn where
  | null
  | bool (b : Bool)
  | num (n : Int)
  | str (s : String)
  | arr (elems : List Jsn)
  | obj (fields : List (String × Jsn))

/-- The dict `\x7b'status_code': ..., 'error': ...\x7d` carried by a raised
`AppveyorError`; `error = none` means the dict has no `'error'` key. -/
structure ErrRecord where
  status_code : Nat
  error : Option String
deriving DecidableEq

/-- Exceptions the Python code can raise on the modelled paths. -/
inductive PyExn where
  | appveyorError (record : ErrRecord)
  | appveyorClientError (msg : String)
  | unboundLocalError (varName : String)
  | valueError

/-- What `_parse_response_contents` returns on success: the decoded JSON
payload (status 200) or Python `None` (status 204). -/
inductive ParseOutcome where
  | value (contents : Jsn)
  | pyNone

/-- A raw HTTP response as the parser sees it: status code, body text, and
the result of `response.json()` (`none` means decoding raises). -/
structure Response where
  status_code : Nat
  text : String
  json : Option Jsn

/-- The request descriptor handed to the HTTP session: verb, URL path and
optional JSON body (the key/value list that `json.dumps` serializes). -/
structure Request where
  method : String
  url : String
  body : Option (List (String × Jsn))

namespace AppveyorClient

/-- The `textwrap.dedent(...)[1:]` diagnostic built in
`_parse_response_contents` when the stripped response text is empty. -/
def genericErrorMsg : String :=
  "Unexpected error\n    Possible reasons are:\n     - Communication with Appveyor has failed.\n     - Insufficient permissions.\n     - Invalid contents returned.\n"

/-- Embedding of `AppveyorClient._parse_response_contents`.  The `try`
block only calls `response.json()` when the status code is 200, so the
`except` branch is reachable only for an undecodable 200 body; there, when
the stripped text is non-empty, `error_msg` was never assigned and building
the error dict raises `UnboundLocalError`.  For any status other than
200/204 the dict raised is `contents = \x7b\x7d` with only `'status_code'`
added. -/
def parse_response_contents (response : Response) : Except PyExn ParseOutcome :=
  let status_code := response.status_code
  if status_code = 200 then
    match response.json with
    | some contents => Except.ok (ParseOutcome.value contents)
    | none =>
      let error := pyStrip response.text
      if error = "" then
        Except.error (PyExn.appveyorError
          { status_code := status_code, error := some genericErrorMsg })
      else
        Except.error (PyExn.unboundLocalError ("error_msg"))
  else if status_code = 204 then
    Except.ok ParseOutcome.pyNone
  else
    Except.error (PyExn.appveyorError { status_code := status_code, error := none })

/-- Embedding of `AppveyorClient._request`: split `"VERB /api/path"` on the
space (Python's two-target unpacking raises `ValueError` unless the split
yields exactly two parts) and build the request descriptor the
verb-specific sender would transmit. -/
def request (method_url : String) (body : Option (List (String × Jsn))) :
    Except PyExn Request :=
  match pySplit method_url (' ') with
  | [m, u] => Except.ok { method := m, url := u, body := body }
  | _ => Except.error PyExn.valueError

/-- One entry of the project list returned by `GET /api/projects`, with the
fields `account_slug_for_repo` reads. -/
structure Project where
  repositoryName : String
  accountName : String
  slug : String

/-- Embedding of `AppveyorClient.account_slug_for_repo`, given the already
fetched project list.  The `for` loop assigns `account_name`/`project_slug`
from the first case-insensitive `repositoryName` match and breaks; both are
then strings, so the `is None` test is false and the pair is returned.  If
no project matches, the loop assigns nothing and evaluating
`account_name is None` raises `UnboundLocalError` — the subsequent
`AppveyorError` raise is unreachable. -/
def account_slug_for_repo (projects : List Project) (repo_full_name : String) :
    Except PyExn (String × String) :=
  match projects.find? (fun p => pyLower p.repositoryName == pyLower repo_full_name) with
  | some p => Except.ok (p.accountName, p.slug)
  | none => Except.error (PyExn.unboundLocalError ("account_name"))

end AppveyorClient

namespace Collaborators

/-- Embedding of `Collaborators.get`: the source builds
`'DELETE /api/users'`, appends `'/\x7buser_id\x7d'` when `user_id` is
truthy, formats, and dispatches. -/
def get (user_id : Option Nat) : Except PyExn Request :=
  let method_url := "DELETE /api/users"
  let method_url := if pyTruthyNat user_id then method_url ++ "/\x7buser_id\x7d" else method_url
  let method_url := pyFormat method_url ("user_id") (pyStrOfNat user_id)
  AppveyorClient.request method_url none

end Collaborators

namespace Roles

/-- Embedding of `Roles.delete_role`: the source sets
`method_url = 'DELETE /api/roles/\x7brole_id\x7d'` and dispatches it
without ever calling `.format`, so `role_id` is unused. -/
def delete_role (role_id : Nat) : Except PyExn Request :=
  let method_url := "DELETE /api/roles/\x7brole_id\x7d"
  AppveyorClient.request method_url none

end Roles

namespace Projects

/-- The `providers` list in `Projects.add`. -/
def providers : List String :=
  ["gitHub", "bitBucket", "vso", "gitLab", "kiln", "stash", "git", "mercurial", "subversion"]

/-- The message of the `AppveyorClientError` raised by `Projects.add`:
`'Invalid repository provider. Must be one of ' + str(providers)`, where
`str` of a Python list of strings is the bracketed, quoted, comma-separated
rendering. -/
def invalidProviderMsg : String :=
  "Invalid repository provider. Must be one of " ++
    ("[" ++ String.intercalate (", ") (providers.map (fun s => "\x27" ++ s ++ "\x27")) ++ "]")

/-- Embedding of `Projects.add`: reject a `repository_provider` outside
`providers` before any request; otherwise POST `/api/projects` with
`repositoryProvider` and `repositoryName` in the body. -/
def add (repository_provider repository_name : String) : Except PyExn Request :=
  if !(providers.contains repository_provider) then
    Except.error (PyExn.appveyorClientError invalidProviderMsg)
  else
    AppveyorClient.request ("POST /api/projects")
      (some [(("repositoryProvider"), Jsn.str repository_provider),
             (("repositoryName"), Jsn.str repository_name)])

end Projects

namespace Builds

/-- The message of the `AppveyorClientError` raised by `Builds.start` when
its argument test fails. -/
def startErrorMsg : String :=
  "Must provide only one of branch or one pull request id or one commit id"

/-- Embedding of `Builds.start`.  The condition chain is transcribed
verbatim from the source, including the second branch's
`commit and not commit and not pull_request_number`, which can never hold. -/
def start (account_name project_slug : String) (branch : Option String)
    (pull_request_number : Option Nat) (commit : Option String)
    (environment_variables : List (String × String)) : Except PyExn Request :=
  let method_url := "POST /api/builds"
  let data : List (String × Jsn) :=
    [(("accountName"), Jsn.str account_name), (("projectSlug"), Jsn.str project_slug)]
  let data' : Except PyExn (List (String × Jsn)) :=
    if pyTruthyStr branch && !pyTruthyNat pull_request_number && !pyTruthyStr commit then
      Except.ok (data ++ [(("branch"), Jsn.str (branch.getD ("")))])
    else if pyTruthyStr commit && !pyTruthyStr commit && !pyTruthyNat pull_request_number then
      Except.ok (data ++ [(("commitId"), Jsn.str (commit.getD ("")))])
    else if pyTruthyNat pull_request_number && !pyTruthyStr commit && !pyTruthyStr branch then
      Except.ok (data ++ [(("pullRequestId"), Jsn.num (Int.ofNat (pull_request_number.getD 0)))])
    else
      Except.error (PyExn.appveyorClientError startErrorMsg)
  match data' with
  | Except.error e => Except.error e
  | Except.ok data =>
    let data :=
      if environment_variables.isEmpty then data
      else data ++ [(("environmentVariables"),
        Jsn.obj (environment_variables.map (fun kv => (kv.1, Jsn.str kv.2))))]
    AppveyorClient.request method_url (some data)

end Builds

theorem splitChar_ne_nil (sep : Char) (l : List Char) : splitChar sep l ≠ [] := by
  cases l with
  | nil => simp [splitChar]
  | cons c cs =>
    simp only [splitChar]
    split
    · simp
    · split <;> simp

theorem splitChar_eq_single (sep : Char) (l : List Char) (h : sep ∉ l) :
    splitChar sep l = [l] := by
  induction l with
  | nil => rfl
  | cons c cs ih =>
    have hc : c ≠ sep := fun hh => h (hh ▸ List.mem_cons_self c cs)
    have hcs : sep ∉ cs := fun hh => h (List.mem_cons_of_mem _ hh)
    simp only [splitChar, ih hcs]
    simp [hc]

theorem splitChar_append_sep (sep : Char) (l₁ l₂ : List Char) (h : sep ∉ l₁) :
    splitChar sep (l₁ ++ sep :: l₂) = l₁ :: splitChar sep l₂ := by
  induction l₁ with
  | nil =>
    simp only [List.nil_append, splitChar]
    rcases hsp : splitChar sep l₂ with _ | ⟨r, rs⟩
    · exact absurd hsp (splitChar_ne_nil sep l₂)
    · simp
  | cons c cs ih =>
    have hc : c ≠ sep := fun hh => h (hh ▸ List.mem_cons_self c cs)
    have hcs : sep ∉ cs := fun hh => h (List.mem_cons_of_mem _ hh)
    simp only [List.cons_append, splitChar, List.append_eq]
    rw [ih hcs]
    simp [hc]

theorem digitChar_ne_space (n : Nat) : Nat.digitChar n ≠ ' ' := by
  match n with
  | 0 | 1 | 2 | 3 | 4 | 5 | 6 | 7 | 8 | 9 | 10 | 11 | 12 | 13 | 14 | 15 => decide
  | (m + 16) =>
    have h : Nat.digitChar (m + 16) = Char.ofNat 42 := rfl
    rw [h]
    decide

theorem toDigitsCore_not_space (b : Nat) (fuel : Nat) : ∀ (n : Nat) (ds : List Char),
    ' ' ∉ ds → ' ' ∉ Nat.toDigitsCore b fuel n ds := by
  induction fuel with
  | zero => intro n ds h; simpa [Nat.toDigitsCore] using h
  | succ fuel ih =>
    intro n ds h
    have hd : ' ' ∉ Nat.digitChar (n % b) :: ds := by
      intro hmem
      rcases List.mem_cons.mp hmem with h1 | h1
      · exact digitChar_ne_space (n % b) h1.symm
      · exact h h1
    simp only [Nat.toDigitsCore]
    split
    · exact hd
    · exact ih (n / b) _ hd

theorem repr_no_space (n : Nat) : ' ' ∉ (Nat.repr n).data := by
  have h := toDigitsCore_not_space 10 (n + 1) n [] (by simp)
  simpa [Nat.repr, Nat.toDigits, List.asString] using h

theorem pyFormat_delete_users (v : String) :
    pyFormat ("DELETE /api/users/\x7buser_id\x7d") ("user_id") v =
      ("DELETE /api/users/") ++ v := by
  have h : pyFormat ("DELETE /api/users/\x7buser_id\x7d") ("user_id") v =
      String.mk ((("DELETE /api/users/").data ++ v.data) ++ []) := rfl
  rw [h, List.append_nil]
  rfl

theorem request_delete_users (v : String) (hv : ' ' ∉ v.data) :
    AppveyorClient.request (("DELETE /api/users/") ++ v) none =
      Except.ok { method := ("DELETE"), url := ("/api/users/") ++ v, body := none } := by
  have h1 : (("DELETE /api/users/") ++ v).data =
      ("DELETE").data ++ ' ' :: (("/api/users/").data ++ v.data) := rfl
  have h2 : ' ' ∉ ("/api/users/").data ++ v.data := by
    intro hmem
    rcases List.mem_append.mp hmem with hm | hm
    · exact absurd hm (by decide)
    · exact hv hm
  unfold AppveyorClient.request pySplit
  rw [h1, splitChar_append_sep _ _ _ (by decide), splitChar_eq_single _ _ h2]
  rfl

/-- C1 counterexample: at status 404 with non-empty body text `"Not found"`,
the raised `AppveyorError` record does NOT carry the trimmed body text (its
dict has no `'error'` key at all), contradicting the claim that for
non-200/204 responses the failure message is the trimmed body text. -/
theorem claim_C1_counterexample :
    ¬ ∃ record,
      AppveyorClient.parse_response_contents
        { status_code := 404, text := ("Not found"), json := none } =
        Except.error (PyExn.appveyorError record) ∧
      record.error = some (pyStrip ("Not found")) := by
  rintro ⟨record, h1, h2⟩
  have h4 : AppveyorClient.parse_response_contents
      { status_code := 404, text := ("Not found"), json := none } =
      Except.error (PyExn.appveyorError { status_code := 404, error := none }) := rfl
  rw [h4] at h1
  injection h1 with h5
  injection h5 with h6
  rw [← h6] at h2
  exact Option.noConfusion h2

/-- C1 (amended): for every response whose status code is neither 200 nor
204, the raised failure record carries the status code and no message at
all — the generic-diagnostic / body-text message logic of the claim is
never reached for such responses. -/
theorem claim_C1_amended_no_message (r : Response)
    (h200 : r.status_code ≠ 200) (h204 : r.status_code ≠ 204) :
    AppveyorClient.parse_response_contents r =
      Except.error (PyExn.appveyorError { status_code := r.status_code, error := none }) := by
  simp [AppveyorClient.parse_response_contents, h200, h204]

theorem claim_C1_amended_no_message_witness :
    AppveyorClient.parse_response_contents
      { status_code := 502, text := ("Bad gateway"), json := none } =
      Except.error (PyExn.appveyorError { status_code := 502, error := none }) :=
  claim_C1_amended_no_message _ (by decide) (by decide)

/-- C5: for every response whose status code is neither 200 nor 204, the
interpreter raises (does not return) an error record whose `status_code`
field is exactly the response's status code. -/
theorem claim_C5_failure_carries_status (r : Response)
    (h200 : r.status_code ≠ 200) (h204 : r.status_code ≠ 204) :
    ∃ record,
      AppveyorClient.parse_response_contents r =
        Except.error (PyExn.appveyorError record) ∧
      record.status_code = r.status_code := by
  refine ⟨{ status_code := r.status_code, error := none }, ?_, rfl⟩
  simp [AppveyorClient.parse_response_contents, h200, h204]

theorem claim_C5_failure_carries_status_witness :
    ∃ record,
      AppveyorClient.parse_response_contents
        { status_code := 500, text := "", json := none } =
        Except.error (PyExn.appveyorError record) ∧
      record.status_code = 500 :=
  claim_C5_failure_carries_status
    { status_code := 500, text := "", json := none } (by decide) (by decide)

/-- C6: a response with status code 200 whose body decodes as JSON to `v`
yields `v` as the outcome, with no error signalled. -/
theorem claim_C6_status200_returns_json (r : Response) (v : Jsn)
    (h200 : r.status_code = 200) (hjson : r.json = some v) :
    AppveyorClient.parse_response_contents r = Except.ok (ParseOutcome.value v) := by
  simp [AppveyorClient.parse_response_contents, h200, hjson]

theorem claim_C6_status200_returns_json_witness :
    AppveyorClient.parse_response_contents
      { status_code := 200, text := ("[1]"), json := some (Jsn.arr [Jsn.num 1]) } =
      Except.ok (ParseOutcome.value (Jsn.arr [Jsn.num 1])) :=
  claim_C6_status200_returns_json _ _ rfl rfl

/-- C7: a response with status code 204 yields the empty outcome (Python
`None`) without decoding the body and without failure, whatever the body
holds — the theorem constrains neither `text` nor `json`. -/
theorem claim_C7_status204_empty (r : Response) (h204 : r.status_code = 204) :
    AppveyorClient.parse_response_contents r = Except.ok ParseOutcome.pyNone := by
  simp [AppveyorClient.parse_response_contents, h204]

theorem claim_C7_status204_empty_witness :
    AppveyorClient.parse_response_contents
      { status_code := 204, text := ("not json at all"), json := none } =
      Except.ok ParseOutcome.pyNone :=
  claim_C7_status204_empty _ rfl

/-- C2 (code bug): supplying only `commit` to `Builds.start` does not send
a POST body with `commitId` — the source's second branch reads
`commit and not commit and not pull_request_number`, which is always
false, so the call falls through to the usage-error raise.  This theorem
evaluates the embedding at the failing input. -/
theorem claim_C2_commit_only_raises :
    Builds.start ("acct") ("proj") none none (some ("abc123")) [] =
      Except.error (PyExn.appveyorClientError Builds.startErrorMsg) := rfl

/-- C3 (code bug): `Roles.delete_role` never calls `.format`, so the URL
sent is the literal `/api/roles/\x7brole_id\x7d` for every `role_id`: the
request does not depend on the argument, contradicting the claim that the
id is substituted into the path. -/
theorem claim_C3_url_ignores_role_id :
    Roles.delete_role 7 =
      Except.ok { method := ("DELETE"), url := ("/api/roles/\x7brole_id\x7d"), body := none } ∧
    Roles.delete_role 7 = Roles.delete_role 99 :=
  ⟨rfl, rfl⟩

/-- C4: a call to `Builds.start` with both `branch` and
`pull_request_number` truthy raises `AppveyorClientError` — the result is
an error, so no request descriptor is ever produced — whatever `commit`
and `environment_variables` are. -/
theorem claim_C4_branch_and_pr_raises (account_name project_slug : String)
    (branch : Option String) (pull_request_number : Option Nat)
    (commit : Option String) (environment_variables : List (String × String))
    (hb : pyTruthyStr branch = true) (hp : pyTruthyNat pull_request_number = true) :
    Builds.start account_name project_slug branch pull_request_number commit
        environment_variables =
      Except.error (PyExn.appveyorClientError Builds.startErrorMsg) := by
  unfold Builds.start
  simp [hb, hp]

theorem claim_C4_branch_and_pr_raises_witness :
    Builds.start ("acct") ("proj") (some ("master")) (some 42) (some ("abc")) [] =
      Except.error (PyExn.appveyorClientError Builds.startErrorMsg) :=
  claim_C4_branch_and_pr_raises _ _ _ _ _ _ rfl rfl

set_option maxRecDepth 4000 in
/-- C8: `Projects.add` raises `AppveyorClientError` before any request when
the provider is outside the allowed set, with a message listing every
valid provider; for an allowed provider it builds the POST `/api/projects`
request whose body carries `repositoryProvider` and `repositoryName`. -/
theorem claim_C8_projects_add_validates (repository_provider repository_name : String) :
    (Projects.providers.contains repository_provider = false →
      Projects.add repository_provider repository_name =
        Except.error (PyExn.appveyorClientError Projects.invalidProviderMsg) ∧
      Projects.providers.all (fun p => hasSub Projects.invalidProviderMsg p) = true) ∧
    (Projects.providers.contains repository_provider = true →
      Projects.add repository_provider repository_name =
        Except.ok
          { method := ("POST"), url := ("/api/projects"),
            body := some [(("repositoryProvider"), Jsn.str repository_provider),
                          (("repositoryName"), Jsn.str repository_name)] }) := by
  constructor
  · intro h
    refine ⟨?_, by decide⟩
    simp only [Projects.add, h, Bool.not_false]
    rfl
  · intro h
    simp only [Projects.add, h, Bool.not_true, Bool.false_eq_true, if_false]
    rfl

theorem claim_C8_projects_add_validates_witness :
    Projects.add ("svn") ("owner/repo") =
      Except.error (PyExn.appveyorClientError Projects.invalidProviderMsg) ∧
    Projects.add ("gitHub") ("owner/repo") =
      Except.ok
        { method := ("POST"), url := ("/api/projects"),
          body := some [(("repositoryProvider"), Jsn.str ("gitHub")),
                        (("repositoryName"), Jsn.str ("owner/repo"))] } :=
  ⟨((claim_C8_projects_add_validates ("svn") ("owner/repo")).1 (by decide)).1,
   (claim_C8_projects_add_validates ("gitHub") ("owner/repo")).2 (by decide)⟩

/-- C9: every `Collaborators.get` call dispatches a DELETE — not a GET, and
not on a collaborators path — whose URL is `/api/users`, with the user id
appended when a truthy one is given. -/
theorem claim_C9_collaborators_get_is_delete_users (user_id : Option Nat) :
    Collaborators.get user_id = Except.ok
      { method := ("DELETE"),
        url := if pyTruthyNat user_id then ("/api/users/") ++ Nat.repr (user_id.getD 0)
               else ("/api/users"),
        body := none } := by
  match user_id with
  | none => rfl
  | some 0 => rfl
  | some (m + 1) =>
    have h : Collaborators.get (some (m + 1)) =
        AppveyorClient.request
          (pyFormat ("DELETE /api/users/\x7buser_id\x7d") ("user_id") (Nat.repr (m + 1)))
          none := rfl
    rw [h, pyFormat_delete_users, request_delete_users _ (repr_no_space _)]
    rfl

/-- C10: when no project's `repositoryName` matches `repo_full_name`
case-insensitively, `account_slug_for_repo` neither returns normally nor
raises its `AppveyorError`: it fails with the `UnboundLocalError` for the
never-assigned local `account_name`. -/
theorem claim_C10_no_match_unbound (projects : List AppveyorClient.Project)
    (repo_full_name : String)
    (h : ∀ p ∈ projects, (pyLower p.repositoryName == pyLower repo_full_name) = false) :
    AppveyorClient.account_slug_for_repo projects repo_full_name =
      Except.error (PyExn.unboundLocalError ("account_name")) := by
  have hnone : projects.find?
      (fun p => pyLower p.repositoryName == pyLower repo_full_name) = none :=
    List.find?_eq_none.mpr (fun p hp => by simp [h p hp])
  unfold AppveyorClient.account_slug_for_repo
  rw [hnone]

theorem claim_C10_no_match_unbound_witness :
    AppveyorClient.account_slug_for_repo [] ("owner/repo") =
      Except.error (PyExn.unboundLocalError ("account_name")) :=
  claim_C10_no_match_unbound [] ("owner/repo") (by simp)
